import Mathlib

/-!
Verification of the chartmuseum_sync tool (src/main.go) against its
specification.  The program is shallowly embedded: the pure diff
algorithm `compareCharts` is translated directly; the HTTP-effectful
functions (`fetchCharts`, `checkInfoEndpoint`, and the transfer loop of
`syncCharts`) are modelled as pure functions over explicit outcome
values describing what the network returned, with control flow copied
line by line from the Go source.
-/

namespace ChartmuseumSync

/-- Go `type ChartVersion struct { Version string }` (main.go line 15).
Two records are equal iff their version strings are equal. -/
structure ChartVersion where
  version : String
deriving DecidableEq, Repr

/-- Go `type ChartData map[string][]ChartVersion` (main.go line 19),
modelled as an association list with unique keys (a Go map cannot hold a
duplicate key; theorems carry the corresponding `Nodup` hypothesis). -/
abbrev ChartData := List (String × List ChartVersion)

/-- Go map indexing `m[k]` returning the value and an existence flag,
modelled as an association-list lookup. -/
def lookupKey {β : Type} : List (String × β) → String → Option β
  | [], _ => none
  | (k, b) :: rest, key => if k = key then some b else lookupKey rest key

/-- The keys of an association list (the key set of a Go map). -/
def keys {β : Type} (l : List (String × β)) : List String :=
  l.map Prod.fst

/-- The version strings of a list of version records. -/
def versionStrings (vs : List ChartVersion) : List String :=
  vs.map ChartVersion.version

/-- Go `versions2, exists := data2[chart]` (main.go line 39): the entry
for `chart`, or the empty list when the chart is absent (in which case
the Go code leaves `versionSet2` empty). -/
def versionsOf (data : ChartData) (chart : String) : List ChartVersion :=
  (lookupKey data chart).getD []

/-- The inner loop of `compareCharts` (main.go lines 44-48): the version
strings of `versions1` that are not in the destination set, appended in
iteration order of `versions1`. -/
def missingVersions (versions1 : List ChartVersion) (set2 : List String) : List String :=
  versionStrings (versions1.filter (fun v => v.version ∉ set2))

/-- Go `compareCharts` (main.go lines 35-51).  For every chart of
`data1` it collects the versions absent from `data2`'s entry for the
same chart; `diff[chart] = append(diff[chart], ...)` creates the key
only when at least one version is appended, hence the emptiness test. -/
def compareCharts (data1 data2 : ChartData) : List (String × List String) :=
  data1.filterMap (fun p =>
    let missing := missingVersions p.2 (versionStrings (versionsOf data2 p.1))
    if missing = [] then none else some (p.1, missing))

/-! ### HTTP effect model

Each network call is represented by an outcome value: either a
transport-level error (Go `err != nil`, in which case `resp` is `nil`),
or a response carrying the status code and what the program would
extract from the body.  JSON decoding by `encoding/json` is part of the
outcome: for the listing it is `Option ChartData` (decode success or
failure), for the probe the raw JSON value is kept so that the
decode-into-map step can be modelled. -/

/-- A JSON value, for modelling `json.Decode` into `map[string]interface{}`. -/
inductive Json where
  | null
  | bool (b : Bool)
  | num (n : Int)
  | str (s : String)
  | arr (elems : List Json)
  | obj (fields : List (String × Json))

/-- Go `json.Decode(&data)` with `data : map[string]interface{}`: a JSON
object yields its field map, JSON `null` leaves the map `nil` (no
error), and any other JSON value is an `UnmarshalTypeError`. -/
def decodeIntoMap : Json → Option (List (String × Json))
  | .obj fields => some fields
  | .null => some []
  | _ => none

/-- Outcome of an HTTP GET whose body the program decodes as `ChartData`.
`decoded = none` means the body failed to decode (malformed JSON or a
JSON value of the wrong shape). -/
inductive ListingOutcome where
  | transportErr
  | resp (statusCode : Nat) (decoded : Option ChartData)
deriving DecidableEq, Repr

/-- Errors produced by `fetchCharts`. -/
inductive FetchError where
  | networkError
  | decodeError
deriving DecidableEq, Repr

/-- Go `fetchCharts` (main.go lines 21-33): on transport error return
the error; otherwise decode the body, failing on decode error.  The
response status code is never inspected. -/
def fetchCharts : ListingOutcome → Except FetchError ChartData
  | .transportErr => .error .networkError
  | .resp _statusCode decoded =>
    match decoded with
    | none => .error .decodeError
    | some data => .ok data

/-- Outcome of the probe GET (main.go line 110): a transport error, or a
response with a status code and a body that is either invalid JSON
(`none`) or some JSON value. -/
inductive ProbeInput where
  | transportErr
  | resp (statusCode : Nat) (body : Option Json)

/-- Errors produced by `checkInfoEndpoint`, one per `return` site. -/
inductive ProbeError where
  | networkError
  | unexpectedStatus (code : Nat)
  | decodeError
  | schemaError
deriving DecidableEq, Repr

/-- Go `checkInfoEndpoint` (main.go lines 109-130): transport error,
then the status check (line 116), then JSON decode into a string-keyed
map (line 121), then the `version`-key presence check (line 125).
Returns `none` on success. -/
def checkInfoEndpoint : ProbeInput → Option ProbeError
  | .transportErr => some .networkError
  | .resp statusCode body =>
    if statusCode ≠ 200 then some (.unexpectedStatus statusCode)
    else
      match body with
      | none => some .decodeError
      | some j =>
        match decodeIntoMap j with
        | none => some .decodeError
        | some fields =>
          if (lookupKey fields "version").isSome then none
          else some .schemaError

/-! ### Transfer-loop model (main.go lines 71-106)

Each diffed item performs an archive GET, a body read, a request build
and an upload POST; the outcomes of these external steps form an
`ItemEnv`.  `processItem` reproduces the control flow of the loop body,
including the crash: when `client.Do` returns an error its response is
`nil`, and line 104 `resp.Body.Close()` dereferences it. -/

/-- Outcome of the archive GET (main.go line 74): transport error (Go
`resp` is `nil`), or a response with a status code and the result of
`io.ReadAll` on its body (`none` = read error). -/
inductive GetResult where
  | transportErr
  | resp (statusCode : Nat) (readResult : Option (List Nat))
deriving DecidableEq, Repr

/-- Outcome of building and sending the upload POST (main.go lines
87-94): `http.NewRequest` error, `client.Do` transport error (response
is `nil`), or a response with a status code. -/
inductive PostResult where
  | newRequestErr
  | transportErr
  | resp (statusCode : Nat)
deriving DecidableEq, Repr

/-- The external outcomes one diffed item encounters. -/
structure ItemEnv where
  get : GetResult
  post : PostResult
deriving DecidableEq, Repr

/-- How the loop body ends for one item: an early `continue` with a
logged failure, a successful sync, or the nil-dereference panic. -/
inductive ItemOutcome where
  | fetchFailed
  | readFailed
  | requestFailed
  | uploadFailed
  | synced
  | panicked
deriving DecidableEq, Repr

/-- One iteration of the transfer loop (main.go lines 72-105):
`if err != nil || resp.StatusCode != 200` → log and continue (line 75);
read failure → log and continue (line 81); `http.NewRequest` failure →
log and continue (line 88); then `if err != nil || resp.StatusCode != 201`
→ log (line 95) — but line 104 `resp.Body.Close()` runs on both
branches, so a `client.Do` transport error (nil `resp`) panics. -/
def processItem (env : ItemEnv) : ItemOutcome :=
  match env.get with
  | .transportErr => .fetchFailed
  | .resp statusCode readResult =>
    if statusCode ≠ 200 then .fetchFailed
    else
      match readResult with
      | none => .readFailed
      | some _data =>
        match env.post with
        | .newRequestErr => .requestFailed
        | .transportErr => .panicked
        | .resp postStatus =>
          if postStatus ≠ 201 then .uploadFailed else .synced

/-- Whether the archive GET's response body is closed on the path the
loop body takes (main.go lines 74-84): no body exists on a transport
error; a non-200 status hits `continue` at line 77 without a `Close`;
otherwise line 80 closes the body unconditionally. -/
def fetchBodyClosed (env : ItemEnv) : Bool :=
  match env.get with
  | .transportErr => true
  | .resp statusCode _readResult =>
    if statusCode ≠ 200 then false
    else true

/-- The archive GET of the item succeeded: status 200 and the body was
read in full. -/
def fetchOk (env : ItemEnv) : Bool :=
  match env.get with
  | .resp statusCode (some _) => statusCode == 200
  | _ => false

/-- The upload POST of the item succeeded: a response with status 201. -/
def uploadOk (env : ItemEnv) : Bool :=
  match env.post with
  | .resp statusCode => statusCode == 201
  | _ => false

/-- The item reached the success branch (main.go line 97). -/
def isSynced (o : ItemOutcome) : Bool :=
  match o with
  | .synced => true
  | _ => false

/-- The item crashed the program. -/
def isPanicked (o : ItemOutcome) : Bool :=
  match o with
  | .panicked => true
  | _ => false

/-- Observable state of the transfer loop: how many items were
attempted, Go's `chartsSynced` counter, the progress-bar position
(`bar.Add(1)` at line 102), and whether the program panicked. -/
structure LoopState where
  attempts : Nat
  synced : Nat
  barPos : Nat
  panicked : Bool
deriving DecidableEq, Repr

/-- The transfer loop over the diffed items: each item is processed in
order; a panic aborts the whole loop (and the program) immediately. -/
def runLoop : LoopState → List ItemEnv → LoopState
  | st, [] => st
  | st, env :: rest =>
    let o := processItem env
    let st' : LoopState :=
      { attempts := st.attempts + 1
        synced := st.synced + (if isSynced o then 1 else 0)
        barPos := st.barPos + (if isSynced o then 1 else 0)
        panicked := isPanicked o }
    if isPanicked o then st' else runLoop st' rest

/-- The diffed (chart, version) items in loop order (main.go lines
71-72 iterate the diff map and each version list). -/
def diffItems : List (String × List String) → List (String × String)
  | [] => []
  | (chart, versions) :: rest => versions.map (fun v => (chart, v)) ++ diffItems rest

/-- The network environment of one `syncCharts` run: outcomes of the
two listing GETs and, for each (chart, version) item, the outcomes of
its archive GET and upload POST. -/
structure SyncEnv where
  source : ListingOutcome
  dest : ListingOutcome
  items : String → String → ItemEnv

/-- Observable result of `syncCharts`: whether it aborted at the
listing stage (main.go line 58 `return`), the computed transfer total
(lines 63-66), and the final loop state. -/
structure SyncResult where
  aborted : Bool
  total : Nat
  attempts : Nat
  synced : Nat
  barPos : Nat
  panicked : Bool
deriving DecidableEq, Repr

/-- Go `syncCharts` (main.go lines 53-107): fetch both listings; if
either failed, print and return (no transfer attempted); otherwise diff,
sum the per-chart diffed-version counts into `totalCharts`, and run the
transfer loop. -/
def syncCharts (env : SyncEnv) : SyncResult :=
  match fetchCharts env.source, fetchCharts env.dest with
  | .ok data1, .ok data2 =>
    let diff := compareCharts data1 data2
    let totalCharts := (diff.map (fun p => p.2.length)).sum
    let st := runLoop ⟨0, 0, 0, false⟩
      ((diffItems diff).map (fun it => env.items it.1 it.2))
    ⟨false, totalCharts, st.attempts, st.synced, st.barPos, st.panicked⟩
  | _, _ => ⟨true, 0, 0, 0, 0, false⟩

/-- Count of items whose archive fetch and upload both succeeded. -/
def countBothOk (items : List ItemEnv) : Nat :=
  (items.filter (fun e => fetchOk e && uploadOk e)).length

/-- Concrete run environment: the destination listing responds with
status 500 but a decodable JSON body, and the single diffed item's
fetch and upload both succeed. -/
def envDest500Decodable : SyncEnv :=
  { source := .resp 200 (some [("app", [⟨"1.0.0"⟩])])
    dest := .resp 500 (some [])
    items := fun _ _ => ⟨.resp 200 (some []), .resp 201⟩ }

/-- Concrete run environment: the destination listing body fails to
decode (for instance an HTML error page). -/
def envDestUndecodable : SyncEnv :=
  { source := .resp 200 (some [])
    dest := .resp 500 none
    items := fun _ _ => ⟨.transportErr, .transportErr⟩ }

/-- Concrete run environment for the spec's example scenario: source
has app 1.0.0 and 1.1.0, destination has app 1.0.0, and the one diffed
item fetches and uploads successfully. -/
def envScenario : SyncEnv :=
  { source := .resp 200 (some [("app", [⟨"1.0.0"⟩, ⟨"1.1.0"⟩])])
    dest := .resp 200 (some [("app", [⟨"1.0.0"⟩])])
    items := fun _ _ => ⟨.resp 200 (some []), .resp 201⟩ }

/-! ### Helper lemmas about the diff -/

theorem compareCharts_cons (c : String) (vs : List ChartVersion) (rest d2 : ChartData) :
    compareCharts ((c, vs) :: rest) d2 =
      if missingVersions vs (versionStrings (versionsOf d2 c)) = []
      then compareCharts rest d2
      else (c, missingVersions vs (versionStrings (versionsOf d2 c))) :: compareCharts rest d2 := by
  by_cases h : missingVersions vs (versionStrings (versionsOf d2 c)) = [] <;>
    simp [compareCharts, List.filterMap_cons, h]

theorem lookupKey_eq_none_of_not_mem_keys {β : Type} (l : List (String × β)) (key : String)
    (h : key ∉ keys l) : lookupKey l key = none := by
  induction l with
  | nil => rfl
  | cons p rest ih =>
    obtain ⟨k, b⟩ := p
    simp only [keys, List.map_cons, List.mem_cons, not_or] at h
    simp only [lookupKey]
    rw [if_neg (fun hh => h.1 hh.symm)]
    exact ih (by simpa [keys] using h.2)

theorem lookupKey_compareCharts_of_not_mem (d1 d2 : ChartData) (C : String)
    (h : C ∉ keys d1) :
    lookupKey (compareCharts d1 d2) C = none := by
  induction d1 with
  | nil => rfl
  | cons p rest ih =>
    obtain ⟨c, vs⟩ := p
    simp only [keys, List.map_cons, List.mem_cons, not_or] at h
    rw [compareCharts_cons]
    split
    · exact ih (by simpa [keys] using h.2)
    · simp only [lookupKey]
      rw [if_neg (fun hh => h.1 hh.symm)]
      exact ih (by simpa [keys] using h.2)

/-- Characterization of a diff lookup: for unique-keyed source data, the
diff's entry for `C` is the missing-version list of the source entry
when that list is nonempty, and absent otherwise. -/
theorem lookupKey_compareCharts (d1 d2 : ChartData) (C : String)
    (h : (keys d1).Nodup) :
    lookupKey (compareCharts d1 d2) C =
      match lookupKey d1 C with
      | none => none
      | some vs =>
        if missingVersions vs (versionStrings (versionsOf d2 C)) = [] then none
        else some (missingVersions vs (versionStrings (versionsOf d2 C))) := by
  induction d1 with
  | nil => rfl
  | cons p rest ih =>
    obtain ⟨c, vs⟩ := p
    simp only [keys, List.map_cons, List.nodup_cons] at h
    obtain ⟨hc_notmem, hrest⟩ := h
    rw [compareCharts_cons]
    by_cases hc : c = C
    · subst hc
      have hnone : lookupKey (compareCharts rest d2) c = none :=
        lookupKey_compareCharts_of_not_mem rest d2 c (by simpa [keys] using hc_notmem)
      by_cases hm : missingVersions vs (versionStrings (versionsOf d2 c)) = []
      · rw [if_pos hm, hnone]
        simp [lookupKey, hm]
      · rw [if_neg hm]
        simp [lookupKey, hm]
    · have ihh := ih (by simpa [keys] using hrest)
      by_cases hm : missingVersions vs (versionStrings (versionsOf d2 c)) = []
      · rw [if_pos hm, ihh]
        simp [lookupKey, hc]
      · rw [if_neg hm]
        simp only [lookupKey, hc, if_false]
        rw [ihh]

theorem lookupKey_compareCharts_none (A B : ChartData) (C : String)
    (h : (keys A).Nodup) (hA : lookupKey A C = none) :
    lookupKey (compareCharts A B) C = none := by
  have hh := lookupKey_compareCharts A B C h
  rw [hA] at hh
  exact hh

theorem lookupKey_compareCharts_some (A B : ChartData) (C : String)
    (vs : List ChartVersion) (h : (keys A).Nodup) (hA : lookupKey A C = some vs) :
    lookupKey (compareCharts A B) C =
      if missingVersions vs (versionStrings (versionsOf B C)) = [] then none
      else some (missingVersions vs (versionStrings (versionsOf B C))) := by
  have hh := lookupKey_compareCharts A B C h
  rw [hA] at hh
  exact hh

theorem mem_missingVersions (V : String) (vs : List ChartVersion) (set2 : List String) :
    V ∈ missingVersions vs set2 ↔ V ∈ versionStrings vs ∧ V ∉ set2 := by
  simp only [missingVersions, versionStrings, List.mem_map, List.mem_filter]
  constructor
  · rintro ⟨v, ⟨hv, hmem⟩, rfl⟩
    exact ⟨⟨v, hv, rfl⟩, by simpa using hmem⟩
  · rintro ⟨⟨v, hv, rfl⟩, hnot⟩
    exact ⟨v, ⟨hv, by simpa using hnot⟩, rfl⟩

theorem mem_ite_getD (V : String) (m : List String) :
    (V ∈ (if m = [] then none else some m).getD []) ↔ V ∈ m := by
  by_cases hm : m = [] <;> simp [hm]

theorem versionsOf_eq_of_lookup (A : ChartData) (C : String) (vs : List ChartVersion)
    (h : lookupKey A C = some vs) : versionsOf A C = vs := by
  simp [versionsOf, h]

/-! ### Helper lemmas about the transfer loop -/

/-- The loop body reaches the success branch exactly when both the
archive GET (status 200, body fully read) and the upload POST
(status 201) succeed for the item. -/
theorem isSynced_processItem (e : ItemEnv) :
    isSynced (processItem e) = (fetchOk e && uploadOk e) := by
  obtain ⟨g, p⟩ := e
  cases g with
  | transportErr => rfl
  | resp s r =>
    by_cases hs : s = 200
    · subst hs
      cases r with
      | none => simp [processItem, fetchOk, uploadOk, isSynced]
      | some d =>
        cases p with
        | newRequestErr => simp [processItem, fetchOk, uploadOk, isSynced]
        | transportErr => simp [processItem, fetchOk, uploadOk, isSynced]
        | resp ps =>
          by_cases hp : ps = 201 <;>
            simp [processItem, fetchOk, uploadOk, isSynced, hp]
    · cases r <;> simp [processItem, fetchOk, uploadOk, isSynced, hs]

theorem countBothOk_cons (e : ItemEnv) (rest : List ItemEnv) :
    countBothOk (e :: rest) =
      (if (fetchOk e && uploadOk e) then 1 else 0) + countBothOk rest := by
  by_cases hc : (fetchOk e && uploadOk e) = true <;>
    simp [countBothOk, List.filter_cons, hc, Nat.add_comm]

/-- If the loop runs to completion without a panic, its counters are
the initial counters advanced by one per fully-successful item, and
every item was attempted. -/
theorem runLoop_no_panic (items : List ItemEnv) (st : LoopState)
    (h : (runLoop st items).panicked = false) :
    (runLoop st items).synced = st.synced + countBothOk items ∧
    (runLoop st items).barPos = st.barPos + countBothOk items ∧
    (runLoop st items).attempts = st.attempts + items.length := by
  induction items generalizing st with
  | nil => simp [runLoop, countBothOk]
  | cons e rest ih =>
    simp only [runLoop] at h ⊢
    by_cases hp : isPanicked (processItem e)
    · rw [if_pos hp] at h
      simp [hp] at h
    · rw [if_neg hp] at h ⊢
      obtain ⟨h1, h2, h3⟩ := ih _ h
      rw [h1, h2, h3, countBothOk_cons]
      simp only [isSynced_processItem]
      cases hb : (fetchOk e && uploadOk e) <;> simp [hb] <;> omega

theorem sum_lengths_eq_diffItems_length (diff : List (String × List String)) :
    (diff.map (fun p => p.2.length)).sum = (diffItems diff).length := by
  induction diff with
  | nil => rfl
  | cons p rest ih =>
    obtain ⟨c, vs⟩ := p
    simp [diffItems, ih]

/-! ### Helper lemmas about the probe -/

theorem checkInfo_eval_statusNe (sc : Nat) (body : Option Json) (hs : sc ≠ 200) :
    checkInfoEndpoint (.resp sc body) = some (.unexpectedStatus sc) := by
  simp [checkInfoEndpoint, hs]

theorem checkInfo_eval_200 (body : Option Json) :
    checkInfoEndpoint (.resp 200 body) =
      match body with
      | none => some .decodeError
      | some j =>
        match decodeIntoMap j with
        | none => some .decodeError
        | some fields =>
          if (lookupKey fields "version").isSome then none
          else some .schemaError := by
  simp [checkInfoEndpoint]

/-! ### Claim theorems -/

/-- C1: for every pair of chart indices (A, B) with unique chart names
in A, the diff computed by `compareCharts` contains chart C with
version V if and only if V appears (as an exact string) in A's entry
for C and does not appear among the version strings in B's entry for C,
or C is absent from B entirely. -/
theorem compareCharts_mem_diff_iff (A B : ChartData) (C V : String)
    (h : (keys A).Nodup) :
    V ∈ (lookupKey (compareCharts A B) C).getD [] ↔
      V ∈ versionStrings (versionsOf A C) ∧
        (V ∉ versionStrings (versionsOf B C) ∨ lookupKey B C = none) := by
  cases hA : lookupKey A C with
  | none =>
    rw [lookupKey_compareCharts_none A B C h hA]
    simp [versionsOf, hA, versionStrings]
  | some vs =>
    rw [lookupKey_compareCharts_some A B C vs h hA]
    rw [mem_ite_getD, mem_missingVersions, versionsOf_eq_of_lookup A C vs hA]
    cases hB : lookupKey B C with
    | none => simp [versionsOf, hB, versionStrings]
    | some ws => simp [hB]

/-- C1 witness: in the spec's scenario, version 1.1.0 of chart app is
in the diff of ({app: [1.0.0, 1.1.0]}, {app: [1.0.0]}). -/
theorem compareCharts_mem_diff_iff_witness :
    "1.1.0" ∈ (lookupKey (compareCharts [("app", [⟨"1.0.0"⟩, ⟨"1.1.0"⟩])]
        [("app", [⟨"1.0.0"⟩])]) "app").getD [] :=
  (compareCharts_mem_diff_iff [("app", [⟨"1.0.0"⟩, ⟨"1.1.0"⟩])]
    [("app", [⟨"1.0.0"⟩])] "app" "1.1.0" (by simp [keys])).mpr (by decide)

/-- C2 (code bug): when the upload POST fails at transport level
(`client.Do` returns an error and a nil response), the loop body does
not continue to the next item: line 104 `resp.Body.Close()`
dereferences the nil response and panics, aborting the loop.  A non-201
response status, by contrast, is recorded and the loop continues. -/
theorem uploadTransportError_panics :
    processItem ⟨.resp 200 (some []), .transportErr⟩ = .panicked ∧
    processItem ⟨.resp 200 (some []), .resp 500⟩ = .uploadFailed ∧
    (runLoop ⟨0, 0, 0, false⟩
      [⟨.resp 200 (some []), .transportErr⟩,
       ⟨.resp 200 (some []), .resp 201⟩]).panicked = true ∧
    (runLoop ⟨0, 0, 0, false⟩
      [⟨.resp 200 (some []), .transportErr⟩,
       ⟨.resp 200 (some []), .resp 201⟩]).attempts = 1 := by
  refine ⟨rfl, rfl, rfl, rfl⟩

/-- C3 counterexample: the destination listing returns HTTP 500 with a
body that decodes as chart JSON; `fetchCharts` succeeds (the status
code is never checked), the sync does not abort, and a transfer attempt
is made. -/
theorem syncCharts_status500_proceeds :
    fetchCharts (.resp 500 (some [])) = .ok [] ∧
    (syncCharts envDest500Decodable).aborted = false ∧
    (syncCharts envDest500Decodable).attempts = 1 := by
  refine ⟨rfl, rfl, rfl⟩

/-- C3 amended: if the destination listing's body fails to decode (the
usual outcome of an HTTP 500 error page), listing fails with an error,
the sync aborts, and zero archive transfer attempts are made; the
status code itself is never consulted. -/
theorem syncCharts_aborts_on_listing_error (env : SyncEnv) (e : FetchError)
    (h : fetchCharts env.dest = .error e) :
    (syncCharts env).aborted = true ∧ (syncCharts env).attempts = 0 := by
  obtain ⟨s, d, items⟩ := env
  simp only at h
  cases hs : fetchCharts s <;> simp [syncCharts, hs, h]

/-- C3 amended witness: a run whose destination listing body is
undecodable aborts with zero transfer attempts. -/
theorem syncCharts_aborts_on_listing_error_witness :
    (syncCharts envDestUndecodable).aborted = true ∧
    (syncCharts envDestUndecodable).attempts = 0 :=
  syncCharts_aborts_on_listing_error envDestUndecodable .decodeError rfl

/-- C4 (code bug): when the archive GET returns a non-200 status such
as 404, the loop takes the early-continue path without closing the
response body (main.go lines 75-77 `continue` before any `Close`): the
body is leaked on exactly the path the claim says is covered. -/
theorem archiveFetchNon200_leaksBody :
    processItem ⟨.resp 404 (some []), .resp 201⟩ = .fetchFailed ∧
    fetchBodyClosed ⟨.resp 404 (some []), .resp 201⟩ = false ∧
    fetchBodyClosed ⟨.resp 200 (some []), .resp 201⟩ = true ∧
    fetchBodyClosed ⟨.resp 200 none, .resp 201⟩ = true := by
  refine ⟨rfl, rfl, rfl, rfl⟩

/-- C5: the transfer total computed before the loop is the sum over all
charts of the number of diffed versions (equivalently the number of
diffed items), and when the loop completes without panicking, the
synced count and the progress-bar position both equal the number of
diffed items whose archive fetch and upload both succeeded. -/
theorem syncCharts_total_and_counts (env : SyncEnv) (data1 data2 : ChartData)
    (h1 : fetchCharts env.source = .ok data1)
    (h2 : fetchCharts env.dest = .ok data2) :
    (syncCharts env).total =
      ((compareCharts data1 data2).map (fun p => p.2.length)).sum ∧
    (syncCharts env).total = (diffItems (compareCharts data1 data2)).length ∧
    ((syncCharts env).panicked = false →
      (syncCharts env).synced =
        countBothOk ((diffItems (compareCharts data1 data2)).map
          (fun it => env.items it.1 it.2)) ∧
      (syncCharts env).barPos = (syncCharts env).synced) := by
  obtain ⟨s, d, items⟩ := env
  simp only at h1 h2
  have hsync : syncCharts ⟨s, d, items⟩ =
      ⟨false,
        ((compareCharts data1 data2).map (fun p => p.2.length)).sum,
        (runLoop ⟨0, 0, 0, false⟩ ((diffItems (compareCharts data1 data2)).map
          (fun it => items it.1 it.2))).attempts,
        (runLoop ⟨0, 0, 0, false⟩ ((diffItems (compareCharts data1 data2)).map
          (fun it => items it.1 it.2))).synced,
        (runLoop ⟨0, 0, 0, false⟩ ((diffItems (compareCharts data1 data2)).map
          (fun it => items it.1 it.2))).barPos,
        (runLoop ⟨0, 0, 0, false⟩ ((diffItems (compareCharts data1 data2)).map
          (fun it => items it.1 it.2))).panicked⟩ := by
    simp only [syncCharts, h1, h2]
  rw [hsync]
  refine ⟨rfl, sum_lengths_eq_diffItems_length _, ?_⟩
  intro hp
  obtain ⟨hs, hb, _⟩ := runLoop_no_panic _ _ hp
  refine ⟨?_, ?_⟩
  · simpa using hs
  · simp only
    rw [hb, hs]

/-- C5 witness: in the spec's scenario the total is 1 and exactly one
item is synced, with the bar at position 1. -/
theorem syncCharts_total_and_counts_witness :
    (syncCharts envScenario).total = 1 ∧
    (syncCharts envScenario).synced = 1 ∧
    (syncCharts envScenario).barPos = 1 := by
  have h := syncCharts_total_and_counts envScenario
    [("app", [⟨"1.0.0"⟩, ⟨"1.1.0"⟩])] [("app", [⟨"1.0.0"⟩])] rfl rfl
  obtain ⟨h1, h2, h3⟩ := h
  have hp : (syncCharts envScenario).panicked = false := by decide
  obtain ⟨hs, hb⟩ := h3 hp
  refine ⟨?_, ?_, ?_⟩
  · rw [h1]
    decide
  · rw [hs]
    decide
  · rw [hb, hs]
    decide

/-- C6 counterexample: for A = {app: []} (a chart with an empty version
list) and an empty destination index, the chart app has an entry in A
but is absent from the diff, so diff(A, {}) does not equal A. -/
theorem compareCharts_emptyDest_counterexample :
    lookupKey ([("app", [])] : ChartData) "app" = some [] ∧
    lookupKey (compareCharts [("app", [])] []) "app" = none := by
  constructor <;> rfl

/-- C6 amended: against an empty destination index, every chart of A
with a nonempty version list appears in the diff with exactly all of
its version strings, while a chart with an empty version list is
absent from the diff. -/
theorem compareCharts_emptyDest (A : ChartData) (h : (keys A).Nodup) (C : String)
    (vs : List ChartVersion) (hC : lookupKey A C = some vs) :
    lookupKey (compareCharts A []) C =
      if vs = [] then none else some (versionStrings vs) := by
  rw [lookupKey_compareCharts_some A [] C vs h hC]
  have h2 : missingVersions vs (versionStrings (versionsOf ([] : ChartData) C)) =
      versionStrings vs := by
    simp [missingVersions, versionsOf, versionStrings, lookupKey]
  rw [h2]
  by_cases hvs : vs = []
  · simp [hvs, versionStrings]
  · rw [if_neg (by simp [versionStrings, hvs]), if_neg hvs]

/-- C6 amended witness: for A = {app: [1.0.0]} the diff against the
empty index maps app to its whole version list. -/
theorem compareCharts_emptyDest_witness :
    lookupKey (compareCharts [("app", [ChartVersion.mk "1.0.0"])] []) "app" =
      if ([ChartVersion.mk "1.0.0"] : List ChartVersion) = [] then none
      else some (versionStrings [ChartVersion.mk "1.0.0"]) :=
  compareCharts_emptyDest [("app", [ChartVersion.mk "1.0.0"])] (by simp [keys])
    "app" [ChartVersion.mk "1.0.0"] rfl

/-- C8: the diff never maps a chart to an empty version list, and a
chart name is a key of the diff exactly when at least one of its source
versions is missing from the destination. -/
theorem compareCharts_no_empty_entries (A B : ChartData) (C : String)
    (h : (keys A).Nodup) :
    (∀ l, lookupKey (compareCharts A B) C = some l → l ≠ []) ∧
    ((∃ l, lookupKey (compareCharts A B) C = some l) ↔
      ∃ V, V ∈ versionStrings (versionsOf A C) ∧
        V ∉ versionStrings (versionsOf B C)) := by
  cases hA : lookupKey A C with
  | none =>
    rw [lookupKey_compareCharts_none A B C h hA]
    constructor
    · intro l hl
      exact absurd hl (by simp)
    · simp [versionsOf, hA, versionStrings]
  | some vs =>
    rw [lookupKey_compareCharts_some A B C vs h hA]
    by_cases hm : missingVersions vs (versionStrings (versionsOf B C)) = []
    · rw [if_pos hm]
      constructor
      · intro l hl
        exact absurd hl (by simp)
      · simp only [versionsOf_eq_of_lookup A C vs hA]
        constructor
        · rintro ⟨l, hl⟩
          exact absurd hl (by simp)
        · rintro ⟨V, hV⟩
          exact absurd ((mem_missingVersions V vs _).mpr hV) (by simp [hm])
    · rw [if_neg hm]
      constructor
      · intro l hl
        rw [Option.some_inj] at hl
        rw [hl] at hm
        exact hm
      · simp only [versionsOf_eq_of_lookup A C vs hA]
        constructor
        · intro _
          obtain ⟨V, hV⟩ := List.exists_mem_of_ne_nil _ hm
          exact ⟨V, (mem_missingVersions V vs _).mp hV⟩
        · intro _
          exact ⟨_, rfl⟩

/-- C8 witness: for A = {app: [1.0.0]} against the empty index, the
diff entry for app exists, is nonempty, and witnesses version 1.0.0. -/
theorem compareCharts_no_empty_entries_witness :
    (∀ l, lookupKey (compareCharts [("app", [ChartVersion.mk "1.0.0"])] []) "app" =
        some l → l ≠ []) ∧
    ((∃ l, lookupKey (compareCharts [("app", [ChartVersion.mk "1.0.0"])] []) "app" =
        some l) ↔
      ∃ V, V ∈ versionStrings (versionsOf [("app", [ChartVersion.mk "1.0.0"])] "app") ∧
        V ∉ versionStrings (versionsOf ([] : ChartData) "app")) :=
  compareCharts_no_empty_entries [("app", [ChartVersion.mk "1.0.0"])] [] "app"
    (by simp [keys])

/-- C9: the diff entry for a chart is exactly the order- and
multiplicity-preserving filtering of the source entry (a version string
duplicated in the source and missing from the destination appears once
per occurrence), and in particular is a subsequence of the source's
version-string list. -/
theorem compareCharts_order_and_multiplicity (A B : ChartData) (C : String)
    (h : (keys A).Nodup) (vs : List ChartVersion) (l : List String)
    (hC : lookupKey A C = some vs)
    (hl : lookupKey (compareCharts A B) C = some l) :
    l = versionStrings (vs.filter
      (fun v => v.version ∉ versionStrings (versionsOf B C))) ∧
    l.Sublist (versionStrings vs) := by
  rw [lookupKey_compareCharts_some A B C vs h hC] at hl
  by_cases hm : missingVersions vs (versionStrings (versionsOf B C)) = []
  · rw [if_pos hm] at hl
    exact absurd hl (by simp)
  · rw [if_neg hm] at hl
    rw [Option.some_inj] at hl
    subst hl
    refine ⟨rfl, ?_⟩
    exact (List.filter_sublist _).map _

/-- C9 witness: with source entry [2.0, 1.0, 2.0] and destination entry
[1.0], the diff entry for app is [2.0, 2.0]: source order and the
duplicate occurrence are both preserved. -/
theorem compareCharts_order_and_multiplicity_witness :
    (["2.0", "2.0"] : List String) =
      versionStrings (([⟨"2.0"⟩, ⟨"1.0"⟩, ⟨"2.0"⟩] : List ChartVersion).filter
        (fun v => v.version ∉
          versionStrings (versionsOf [("app", [ChartVersion.mk "1.0"])] "app"))) ∧
    (["2.0", "2.0"] : List String).Sublist
      (versionStrings [⟨"2.0"⟩, ⟨"1.0"⟩, ⟨"2.0"⟩]) :=
  compareCharts_order_and_multiplicity
    [("app", [⟨"2.0"⟩, ⟨"1.0"⟩, ⟨"2.0"⟩])] [("app", [ChartVersion.mk "1.0"])] "app"
    (by simp [keys]) [⟨"2.0"⟩, ⟨"1.0"⟩, ⟨"2.0"⟩] ["2.0", "2.0"] rfl (by decide)

/-- C7 counterexample: a status-200 response whose body is valid JSON
but an array (not an object) fails with a decode error, so "fails with
a decode error exactly when the body is not valid JSON" is false. -/
theorem checkInfoEndpoint_jsonArray_decodeError :
    checkInfoEndpoint (.resp 200 (some (.arr []))) = some .decodeError := rfl

/-- C7 amended: the probe fails with a status error exactly when the
status is not 200; given status 200 it fails with a decode error
exactly when the body does not decode into a string-keyed JSON map
(invalid JSON, or a JSON value that is neither an object nor null),
with a schema error exactly when the decoded map lacks a version key,
and succeeds exactly when the key is present; the checks apply in that
order. -/
theorem checkInfoEndpoint_characterization (statusCode : Nat) (body : Option Json) :
    (checkInfoEndpoint .transportErr = some .networkError) ∧
    (checkInfoEndpoint (.resp statusCode body) = some (.unexpectedStatus statusCode) ↔
      statusCode ≠ 200) ∧
    (checkInfoEndpoint (.resp statusCode body) = some .decodeError ↔
      statusCode = 200 ∧ body.bind decodeIntoMap = none) ∧
    (checkInfoEndpoint (.resp statusCode body) = some .schemaError ↔
      statusCode = 200 ∧ ∃ fields, body.bind decodeIntoMap = some fields ∧
        lookupKey fields "version" = none) ∧
    (checkInfoEndpoint (.resp statusCode body) = none ↔
      statusCode = 200 ∧ ∃ fields, body.bind decodeIntoMap = some fields ∧
        (lookupKey fields "version").isSome) := by
  by_cases hs : statusCode = 200
  · subst hs
    rw [checkInfo_eval_200]
    cases body with
    | none => refine ⟨rfl, ?_, ?_, ?_, ?_⟩ <;> simp
    | some j =>
      cases hd : decodeIntoMap j with
      | none => refine ⟨rfl, ?_, ?_, ?_, ?_⟩ <;> simp [hd]
      | some fields =>
        cases hv : lookupKey fields "version" with
        | none => refine ⟨rfl, ?_, ?_, ?_, ?_⟩ <;> simp [hd, hv]
        | some v => refine ⟨rfl, ?_, ?_, ?_, ?_⟩ <;> simp [hd, hv]
  · rw [checkInfo_eval_statusNe statusCode body hs]
    refine ⟨rfl, ?_, ?_, ?_, ?_⟩ <;> simp [hs]

/-- C10: the probe accepts a JSON object containing a version key with
a value of any JSON type (including null), and a body that is valid
JSON but an array is rejected with a decode error, not a schema
error. -/
theorem checkInfoEndpoint_version_any_type (fields : List (String × Json)) (v : Json)
    (h : lookupKey fields "version" = some v) (elems : List Json) :
    checkInfoEndpoint (.resp 200 (some (.obj fields))) = none ∧
    checkInfoEndpoint (.resp 200 (some (.arr elems))) = some .decodeError := by
  constructor
  · simp [checkInfoEndpoint, decodeIntoMap, h]
  · rfl

/-- C10 witness: a version key whose value is JSON null is accepted,
and an array body is a decode error. -/
theorem checkInfoEndpoint_version_any_type_witness :
    checkInfoEndpoint (.resp 200 (some (.obj [("version", Json.null)]))) = none ∧
    checkInfoEndpoint (.resp 200 (some (.arr []))) = some .decodeError :=
  checkInfoEndpoint_version_any_type [("version", Json.null)] Json.null rfl []

end ChartmuseumSync
